import Mathlib

/-!
Verification development for the cloud-init excerpt consisting of the
NoCloud seed resolver (cloudinit/sources/DataSourceNoCloud.py) and the
hotplug coordinator (cloudinit/cmd/devel/hotplug_hook.py).

The Python code is shallowly embedded: YAML-like values become the
mutually inductive types `JVal`/`JObj`, Python dict mutation becomes
functional updates, and the external world (DMI, kernel command line,
seed directories, block devices, mounts, the remote `read_seeded`
fetch, the datasource behind hotplug events) is passed in as an
explicit environment record.  Exceptions become explicit result
constructors.
-/

mutual
/-- A YAML/JSON-like value as used for NoCloud metadata.  Python dicts are
represented by the mutually inductive association list `JObj` (key order
is significant, as in Python's insertion-ordered dicts).  Strings and
`None` cover every scalar shape exercised by the embedded code paths. -/
inductive JVal where
  | null : JVal
  | str : String → JVal
  | dict : JObj → JVal
  deriving DecidableEq
inductive JObj where
  | nil : JObj
  | cons : String → JVal → JObj → JObj
  deriving DecidableEq
end

/-- Python `d.get(k)` / `k in d` on an insertion-ordered dict. -/
def jlookup : JObj → String → Option JVal
  | JObj.nil, _ => none
  | JObj.cons k' v rest, k => if k' = k then some v else jlookup rest k

/-- Replace the value stored at an existing key (first occurrence). -/
def jsetKey : JObj → String → JVal → JObj
  | JObj.nil, _, _ => JObj.nil
  | JObj.cons k' v' rest, k, v =>
    if k' = k then JObj.cons k v rest else JObj.cons k' v' (jsetKey rest k v)

/-- Append a (new) key at the end, as Python dict insertion does. -/
def jappend : JObj → String → JVal → JObj
  | JObj.nil, k, v => JObj.cons k v JObj.nil
  | JObj.cons k' v' rest, k, v => JObj.cons k' v' (jappend rest k v)

/-- Python `d[k] = v`: overwrite when the key exists, append otherwise. -/
def jset (d : JObj) (k : String) (v : JVal) : JObj :=
  if (jlookup d k).isSome then jsetKey d k v else jappend d k v

/-- The keys of a dict, in insertion order. -/
def jkeys : JObj → List String
  | JObj.nil => []
  | JObj.cons k _ rest => k :: jkeys rest

/-- Python dict truthiness: a dict is falsy iff empty. -/
def jIsEmpty : JObj → Bool
  | JObj.nil => true
  | JObj.cons _ _ _ => false

mutual
/-- Modelled from the spec: `util.mergemanydict` (cloudinit/util.py, not part
of the excerpt) and the default dict merger it constructs.  The in-excerpt
call sites pin its precedence down: `DataSourceNoCloud._get_data` merges the
seedfrom result with the comment "Values in the command line override those
from the seed" via `mergemanydict([mydata[meta-data], md_seed])`, and merges
`defaults` last so that defaults do not override source-supplied values;
`DataSourceExtraConfig` likewise merges `[md, DEFAULT_METADATA]` and
`[user_cfg, BUILTIN_DS_CONFIG]`.  Hence the merge folds each later dict into
the accumulator with no-replace semantics: a key already present keeps the
accumulated value, except that two dict values are merged recursively; keys
are never removed; new keys are appended.  `mergeVal` is the per-key combine
(`no_replace` with dict recursion), `mergeObj` folds one dict in. -/
def mergeVal : JVal → JVal → JVal
  | JVal.dict a, JVal.dict b => JVal.dict (mergeObj a b)
  | old, _ => old
def mergeObj : JObj → JObj → JObj
  | value, JObj.nil => value
  | value, JObj.cons k v rest =>
    mergeObj
      (match jlookup value k with
       | none => jappend value k v
       | some old => jsetKey value k (mergeVal old v))
      rest
end

/-- Modelled from the spec: `util.mergemanydict(srcs)` folds the list of
dicts left to right into an (initially empty) accumulator, skipping falsy
(empty) entries; earlier entries therefore take precedence per key. -/
def mergemanydict (srcs : List JObj) : JObj :=
  srcs.foldl (fun acc cfg => if jIsEmpty cfg then acc else mergeObj acc cfg) JObj.nil

/-! ## String helpers

The kernel command line parsing in `DataSourceNoCloud.py` works on Python
strings.  These helpers reproduce the relevant Python string primitives on
`List Char` (Python `str.split` and friends, with whitespace taken to be
the space character, the only whitespace occurring on the modelled kernel
command lines). -/

/-- Python `s.split(sep)` for a one-character separator. -/
def splitOnChar (sep : Char) : List Char → List (List Char)
  | [] => [[]]
  | c :: rest =>
    match splitOnChar sep rest with
    | [] => [[]]
    | grp :: gs => if c = sep then [] :: grp :: gs else (c :: grp) :: gs

/-- Python `s.split(sep, 1)`: the part before the first separator and,
when the separator occurs, the remainder after it. -/
def splitOnceChar (sep : Char) : List Char → List Char × Option (List Char)
  | [] => ([], none)
  | c :: rest =>
    if c = sep then ([], some rest)
    else
      match splitOnceChar sep rest with
      | (before, after) => (c :: before, after)

/-- Python `s.split()` restricted to space-separated input: maximal
nonempty runs of non-space characters. -/
def spaceTokens (s : List Char) : List (List Char) :=
  (splitOnChar ' ' s).filter (fun t => !t.isEmpty)

/-- Python `pat in s` (substring containment). -/
def containsSub (pat : List Char) : List Char → Bool
  | [] => pat.isPrefixOf []
  | c :: rest => pat.isPrefixOf (c :: rest) || containsSub pat rest

/-- Python `s.startswith(p)`. -/
def strStartsWith (s p : String) : Bool :=
  p.data.isPrefixOf s.data

/-- Python `s.upper()` (ASCII, sufficient for filesystem labels). -/
def str_upper (s : String) : String := String.mk (s.data.map Char.toUpper)

/-- Python `s.lower()` (ASCII, sufficient for filesystem labels). -/
def str_lower (s : String) : String := String.mk (s.data.map Char.toLower)

/-! ## NoCloud: dsmode constants and kernel command line parsing -/

/-- `sources.DSMODE_DISABLED`. -/
def DSMODE_DISABLED : String := "disabled"

/-- `sources.DSMODE_LOCAL`. -/
def DSMODE_LOCAL : String := "local"

/-- `sources.DSMODE_NETWORK`. -/
def DSMODE_NETWORK : String := "net"

/-- `sources.VALID_DSMODES`. -/
def VALID_DSMODES : List String := [DSMODE_DISABLED, DSMODE_LOCAL, DSMODE_NETWORK]

/-- The `fill` dict built by `parse_cmdline_data`: string keys mapped to a
string value or to Python `None` (for a `key` item with no `=`). -/
abbrev Fill := List (String × Option String)

/-- Python `fill.get(k)` on the parse dict. -/
def fillGet : Fill → String → Option (Option String)
  | [], _ => none
  | (k', v) :: rest, k => if k' = k then some v else fillGet rest k

/-- Python `fill[k] = v` on the parse dict. -/
def fillSet (fill : Fill) (k : String) (v : Option String) : Fill :=
  if (fillGet fill k).isSome then
    fill.map (fun kv => if kv.1 = k then (k, v) else kv)
  else
    fill ++ [(k, v)]

/-- The `s2l` short-to-long key mapping of `parse_cmdline_data`. -/
def s2l (k : String) : String :=
  if k = "h" then "local-hostname"
  else if k = "i" then "instance-id"
  else if k = "s" then "seedfrom"
  else k

/-- The `for item in kvpairs` loop of `parse_cmdline_data`: skip empty
items, split each at the first `=` (no `=` yields value `None`), map short
keys through `s2l`, and store into `fill`. -/
def applyKvpairs (fill : Fill) : List (List Char) → Fill
  | [] => fill
  | item :: rest =>
    if item.isEmpty then applyKvpairs fill rest
    else
      match splitOnceChar '=' item with
      | (k, some v) => applyKvpairs (fillSet fill (s2l (String.mk k)) (some (String.mk v))) rest
      | (k, none) => applyKvpairs (fillSet fill (s2l (String.mk k)) none) rest

/-- `parse_cmdline_data(ds_id, fill, cmdline)` with `fill` starting empty
(as at both call sites in `load_cmdline_data`).  Returns the filled dict
when the command line indicates the datasource, `none` otherwise.  The two
`none` fallbacks inside are unreachable for space-separated command lines:
when the padded substring check succeeds some token starts with `ds_id`,
and that token contains `=`. -/
def parse_cmdline_data (ds_id : String) (cmdline : String) : Option Fill :=
  let padded := (" " ++ cmdline ++ " ").data
  if !(containsSub (" " ++ ds_id ++ " ").data padded
        || containsSub (" " ++ ds_id ++ ";").data padded) then
    none
  else
    match ((spaceTokens padded).filter (fun t => ds_id.data.isPrefixOf t)).getLast? with
    | none => none
    | some tok =>
      match (splitOnceChar '=' tok).2 with
      | none => none
      | some argline1 =>
        some (applyKvpairs [] (splitOnChar ';' argline1).tail)

/-- `load_cmdline_data(fill, cmdline)` with `fill` starting empty.  Tries
`ds=nocloud` (local dsmode) then `ds=nocloud-net` (network dsmode); on a
hit, prefers an explicit `dsmode` key, else derives `dsmode` from the
`seedfrom` URL scheme, else uses the pair's dsmode. -/
def load_cmdline_pairs : List (String × String) → String → Option Fill
  | [], _ => none
  | (idstr, dsmode) :: rest, cmdline =>
    match parse_cmdline_data idstr cmdline with
    | none => load_cmdline_pairs rest cmdline
    | some fill =>
      if (fillGet fill "dsmode").isSome then some fill
      else
        match fillGet fill "seedfrom" with
        | some (some sf) =>
          if sf = "" then some (fillSet fill "dsmode" (some dsmode))
          else if strStartsWith sf "http://" || strStartsWith sf "https://"
              || strStartsWith sf "ftp://" || strStartsWith sf "ftps://" then
            some (fillSet fill "dsmode" (some DSMODE_NETWORK))
          else if strStartsWith sf "file://" || strStartsWith sf "/" then
            some (fillSet fill "dsmode" (some DSMODE_LOCAL))
          else some fill
        | some none => some (fillSet fill "dsmode" (some dsmode))
        | none => some (fillSet fill "dsmode" (some dsmode))

/-- `load_cmdline_data` proper. -/
def load_cmdline_data (cmdline : String) : Option Fill :=
  load_cmdline_pairs [("ds=nocloud", DSMODE_LOCAL), ("ds=nocloud-net", DSMODE_NETWORK)] cmdline

/-- Convert a parse `fill` dict to a metadata dict (`None` values become
YAML/JSON null). -/
def fillToObj : Fill → JObj
  | [] => JObj.nil
  | (k, some v) :: rest => JObj.cons k (JVal.str v) (fillToObj rest)
  | (k, none) :: rest => JObj.cons k JVal.null (fillToObj rest)

/-! ## NoCloud: seed contributions and `_merge_new_seed` -/

/-- One `seeded` argument to `_merge_new_seed`: the observable content of a
`pathprefix2dict` result or of `ds_cfg`.  Raw YAML strings are represented
by their `util.load_yaml` observation: `metaData = none` models a
`meta-data` string that fails to load as a mapping (so `mergemanydict`
skips it), `networkConfig = some p` models a present and truthy
`network-config` entry whose `load_yaml` result is `p`. -/
structure Seeded where
  metaData : Option JObj
  hasUserData : Bool
  userData : String
  hasVendorData : Bool
  vendorData : String
  networkConfig : Option (Option JObj)

/-- The `mydata` accumulator of `_get_data`: `meta-data`, `user-data`,
`vendor-data`, `network-config`. -/
structure MyData where
  metaData : JObj
  userData : String
  vendorData : String
  networkConfig : Option JObj
  deriving DecidableEq

/-- The initial `mydata` of `_get_data`. -/
def initMyData : MyData := ⟨JObj.nil, "", "", none⟩

/-- `_merge_new_seed(cur, seeded)`: metadata via `mergemanydict([cur, new])`
(current values win), `network-config` replaced by its YAML load when the
seeded entry is truthy, `user-data`/`vendor-data` replaced when present. -/
def merge_new_seed (cur : MyData) (seeded : Seeded) : MyData :=
  { metaData := mergemanydict [cur.metaData, (seeded.metaData.getD JObj.nil)]
    networkConfig :=
      match seeded.networkConfig with
      | some parsed => parsed
      | none => cur.networkConfig
    userData := if seeded.hasUserData then seeded.userData else cur.userData
    vendorData := if seeded.hasVendorData then seeded.vendorData else cur.vendorData }

/-- A `{"meta-data": md}` seed as built for the DMI and command line
sources (the metadata is already a dict, no other keys present). -/
def meta_only (md : JObj) : Seeded := ⟨some md, false, "", false, "", none⟩

/-! ## NoCloud: `_get_devices` -/

/-- A block device as observed through `util.find_devs_with` (blkid):
its name, filesystem type, label, and optional FAT boot label. -/
structure BlockDev where
  name : String
  fstype : String
  label : String
  labelFatboot : Option String
  deriving DecidableEq

/-- A blkid search token, as in the strings `TYPE=vfat`, `LABEL=...`,
`LABEL_FATBOOT=...` that `_get_devices` passes to `util.find_devs_with`. -/
inductive DevCriteria where
  | fsType : String → DevCriteria
  | fsLabel : String → DevCriteria
  | fatbootLabel : String → DevCriteria

/-- Whether a device matches a blkid search token (exact value match, as
blkid performs). -/
def dev_matches (c : DevCriteria) (d : BlockDev) : Bool :=
  match c with
  | DevCriteria.fsType t => d.fstype = t
  | DevCriteria.fsLabel l => d.label = l
  | DevCriteria.fatbootLabel l => d.labelFatboot = some l

/-- Modelled from the spec: `util.find_devs_with` (not part of the
excerpt) enumerates the device paths matching one blkid search token. -/
def find_devs_with (devs : List BlockDev) (c : DevCriteria) : List String :=
  (devs.filter (dev_matches c)).map BlockDev.name

/-- `DataSourceNoCloud._get_devices(label)`: devices of type vfat or
iso9660 whose label is the uppercase or lowercase form of `label` or whose
FAT boot label is exactly `label`; Python's `list(set(fslist) &
set(label_list))` followed by `devlist.sort(reverse=True)` is modelled as
deduplication of the intersection followed by a descending sort. -/
def get_devices (devs : List BlockDev) (label : String) : List String :=
  let fslist := find_devs_with devs (DevCriteria.fsType "vfat")
      ++ find_devs_with devs (DevCriteria.fsType "iso9660")
  let label_list := find_devs_with devs (DevCriteria.fsLabel (str_upper label))
      ++ find_devs_with devs (DevCriteria.fsLabel (str_lower label))
      ++ find_devs_with devs (DevCriteria.fatbootLabel label)
  List.insertionSort (fun a b => b ≤ a)
    ((fslist.filter (fun n => label_list.contains n)).dedup)

/-- The candidate list as the specification describes it: filesystem-type
filter intersected with a case-insensitive primary-label filter (plus the
exact FAT boot fallback), deduplicated and sorted descending. -/
def get_devices_spec_reading (devs : List BlockDev) (label : String) : List String :=
  List.insertionSort (fun a b => b ≤ a)
    (((devs.filter (fun d =>
        (d.fstype = "vfat" || d.fstype = "iso9660") &&
        (str_lower d.label = str_lower label || d.labelFatboot = some label))).map
      BlockDev.name).dedup)

/-! ## NoCloud: `_get_data` -/

/-- Outcome of mounting one candidate device and reading the required
seed files inside `_get_data`'s device loop: a valid seed, a `ValueError`
(not a valid seed, skip), a swallowed `ENOENT`, a `MountFailedError`
(logged, skip), or another `OSError` (re-raised). -/
inductive MountResult where
  | ok : Seeded → MountResult
  | invalidSeed : MountResult
  | enoent : MountResult
  | mountFailed : MountResult
  | fatalOSError : MountResult

/-- The environment `_get_data` runs against: every external observation
it makes, in source order.  `cfgSeedfrom` is `ds_cfg.get("seedfrom")` when
truthy; `cfgSeeded` is present when both `user-data` and `meta-data` are in
`ds_cfg` (its `Seeded` view); `cfgFsLabel` distinguishes an absent
`fs_label` key (defaulting to `cidata`) from an explicit null.
`readSeeded` returns `none` when `util.read_seeded` raises. -/
structure NoCloudEnv where
  dmiSerial : Option String
  cmdline : String
  seedDirSeeds : List (String × Option Seeded)
  cfgSeedfrom : Option String
  cfgSeeded : Option Seeded
  cfgFsLabel : Option (Option String)
  devices : List BlockDev
  mountResult : String → MountResult
  subDmiVars : String → String
  readSeeded : String → Option (JObj × String × String × Option JObj)
  initialDsmode : String
  supportedSeedStarts : List String

/-- Result of `_get_data`: the populated datasource fields on success
(`return True`), `notFound` for `return False`, `raised` when an uncaught
exception propagates. -/
structure ResolvedSeed where
  seed : String
  metadata : JObj
  userdataRaw : String
  vendordataRaw : String
  networkConfig : Option JObj

inductive GetDataResult where
  | found : ResolvedSeed → GetDataResult
  | notFound : GetDataResult
  | raised : GetDataResult

/-- DMI step: parse the system serial number like a command line. -/
def step_dmi (env : NoCloudEnv) (st : List String × MyData) : List String × MyData :=
  match env.dmiSerial with
  | none => st
  | some serial =>
    if serial = "" then st
    else
      match load_cmdline_data serial with
      | none => st
      | some fill => (st.1 ++ ["dmi"], merge_new_seed st.2 (meta_only (fillToObj fill)))

/-- Kernel command line step. -/
def step_cmdline (env : NoCloudEnv) (st : List String × MyData) : List String × MyData :=
  match load_cmdline_data env.cmdline with
  | none => st
  | some fill => (st.1 ++ ["cmdline"], merge_new_seed st.2 (meta_only (fillToObj fill)))

/-- Seed directory loop: first directory whose `pathprefix2dict` succeeds
wins (`break`); a `ValueError` moves on to the next directory. -/
def first_seed_dir : List (String × Option Seeded) → Option (String × Seeded)
  | [] => none
  | (path, some seeded) :: _ => some (path, seeded)
  | (_, none) :: rest => first_seed_dir rest

def step_seed_dirs (env : NoCloudEnv) (st : List String × MyData) : List String × MyData :=
  match first_seed_dir env.seedDirSeeds with
  | none => st
  | some (path, seeded) => (st.1 ++ [path], merge_new_seed st.2 seeded)

/-- Datasource-config `seedfrom` step: a truthy `ds_cfg["seedfrom"]` is
written directly into the metadata (plain dict assignment). -/
def step_cfg_seedfrom (env : NoCloudEnv) (st : List String × MyData) : List String × MyData :=
  match env.cfgSeedfrom with
  | none => st
  | some sf =>
    (st.1 ++ ["ds_config_seedfrom"],
     { st.2 with metaData := jset st.2.metaData "seedfrom" (JVal.str sf) })

/-- Datasource-config data step: when `ds_cfg` carries both `user-data`
and `meta-data` it is merged like any other seed. -/
def step_cfg_data (env : NoCloudEnv) (st : List String × MyData) : List String × MyData :=
  match env.cfgSeeded with
  | none => st
  | some seeded => (st.1 ++ ["ds_config"], merge_new_seed st.2 seeded)

/-- `ds_cfg.get("fs_label", "cidata")`. -/
def effective_fs_label (env : NoCloudEnv) : Option String :=
  match env.cfgFsLabel with
  | none => some "cidata"
  | some v => v

/-- Device loop of `_get_data`: first device that mounts and yields a
valid seed wins; `ValueError`, `ENOENT` and `MountFailedError` skip the
candidate; any other `OSError` is re-raised. -/
def dev_loop (env : NoCloudEnv) : List String → List String × MyData → Except Unit (List String × MyData)
  | [], st => Except.ok st
  | dev :: rest, st =>
    match env.mountResult dev with
    | MountResult.ok seeded => Except.ok (st.1 ++ [dev], merge_new_seed st.2 seeded)
    | MountResult.invalidSeed => dev_loop env rest st
    | MountResult.enoent => dev_loop env rest st
    | MountResult.mountFailed => dev_loop env rest st
    | MountResult.fatalOSError => Except.error ()

def step_devices (env : NoCloudEnv) (st : List String × MyData) : Except Unit (List String × MyData) :=
  match effective_fs_label env with
  | none => Except.ok st
  | some label => dev_loop env (get_devices env.devices label) st

/-- The source-gathering phase of `_get_data` (everything before the
`if not found` check), threading `(found, mydata)` through the six
candidate sources in their fixed order. -/
def sources_phase (env : NoCloudEnv) : Except Unit (List String × MyData) :=
  step_devices env
    (step_cfg_data env
      (step_cfg_seedfrom env
        (step_seed_dirs env
          (step_cmdline env
            (step_dmi env ([], initMyData))))))

/-- Early exits of the `seedfrom` step: an unusable URL returns False,
`read_seeded` may raise (so may `startswith` on a non-string value). -/
inductive SeedfromExit where
  | notFound : SeedfromExit
  | raised : SeedfromExit

/-- The `seedfrom` step of `_get_data`: when the merged metadata carries a
`seedfrom` key, check it against `supported_seed_starts` (unusable URLs
make `_get_data` return False), substitute DMI variables, fetch via
`read_seeded` (errors propagate), and merge the fetched bundle with the
command line values taking precedence (`mergemanydict([mydata, md_seed])`);
user-data, vendor-data and network-config are replaced wholesale. -/
def seedfrom_step (env : NoCloudEnv) (st : List String × MyData) :
    Except SeedfromExit (List String × MyData) :=
  match jlookup st.2.metaData "seedfrom" with
  | none => Except.ok st
  | some (JVal.str seedfrom) =>
    if env.supportedSeedStarts.any (fun proto => strStartsWith seedfrom proto) then
      match env.readSeeded (env.subDmiVars seedfrom) with
      | none => Except.error SeedfromExit.raised
      | some (md_seed, ud, vd, network) =>
        Except.ok (st.1 ++ [env.subDmiVars seedfrom],
          { metaData := mergemanydict [st.2.metaData, md_seed]
            userData := ud
            vendorData := vd
            networkConfig := network })
    else Except.error SeedfromExit.notFound
  | some _ => Except.error SeedfromExit.raised

/-- The `defaults` dict of `_get_data`, captured on entry. -/
def nocloud_defaults (env : NoCloudEnv) : JObj :=
  JObj.cons "instance-id" (JVal.str "nocloud")
    (JObj.cons "dsmode" (JVal.str env.initialDsmode) JObj.nil)

/-- Modelled from the spec: `DataSource._determine_dsmode` (in
cloudinit/sources/__init__.py, not part of the excerpt) returns the first
non-None candidate contained in `VALID_DSMODES`, else the datasource's
current (default) dsmode.  Here there is a single candidate,
`mydata["meta-data"].get("dsmode")`. -/
def determine_dsmode (candidate : Option JVal) (dflt : String) : String :=
  match candidate with
  | some (JVal.str c) => if VALID_DSMODES.contains c then c else dflt
  | _ => dflt

/-- The dsmode resolved by `_get_data` after merging the defaults in. -/
def resolved_dsmode (env : NoCloudEnv) (my : MyData) : String :=
  determine_dsmode
    (jlookup (mergemanydict [my.metaData, nocloud_defaults env]) "dsmode")
    env.initialDsmode

/-- The tail of `_get_data` after the seedfrom step: merge the defaults
(without overriding gathered values), resolve dsmode once, discard the
bundle when disabled, otherwise populate the datasource fields. -/
def finalize_data (env : NoCloudEnv) (st : List String × MyData) : GetDataResult :=
  let md := mergemanydict [st.2.metaData, nocloud_defaults env]
  if resolved_dsmode env st.2 = DSMODE_DISABLED then GetDataResult.notFound
  else
    GetDataResult.found
      { seed := String.intercalate "," st.1
        metadata := md
        userdataRaw := st.2.userData
        vendordataRaw := st.2.vendorData
        networkConfig := st.2.networkConfig }

/-- `DataSourceNoCloud._get_data`, end to end. -/
def get_data (env : NoCloudEnv) : GetDataResult :=
  match sources_phase env with
  | Except.error () => GetDataResult.raised
  | Except.ok st =>
    if st.1.isEmpty then GetDataResult.notFound
    else
      match seedfrom_step env st with
      | Except.error SeedfromExit.notFound => GetDataResult.notFound
      | Except.error SeedfromExit.raised => GetDataResult.raised
      | Except.ok st2 => finalize_data env st2

/-! ## Hotplug coordinator (cloudinit/cmd/devel/hotplug_hook.py)

The attempt sequence of `try_hotplug` is modelled as an event trace.  The
behaviour of the live datasource and of the system is a function of a
global attempt counter (each attempt observes the world once), which
shallowly embeds the fact that the world may change between attempts. -/

/-- One observable step of hotplug event processing: the four stages of an
attempt plus the sleeps performed by the retry loops. -/
inductive HotplugStep where
  | refreshMetadata : HotplugStep
  | detectDevice : HotplugStep
  | applyConfig : HotplugStep
  | recordSuccess : HotplugStep
  | sleep : Nat → HotplugStep
  deriving DecidableEq

/-- The datasource/world behaviour behind one hotplug `handle` run:
per-attempt outcomes of `update_metadata`, `device_detected` and `apply`,
plus the datasource attributes `skip_hotplug_detect` and
`hotplug_retry_settings` consulted by the coordinator. -/
structure HotplugDS where
  updateOk : Nat → Bool
  skipHotplugDetect : Bool
  detectOk : Nat → Bool
  applyOk : Nat → Bool
  forceRetry : Bool
  sleepTotal : Nat
  sleepPeriod : Nat

/-- `RuntimeError` text of `UeventHandler.update_metadata` on a falsy
refresh result. -/
def updateFailMsg : String := "Datasource not updated for event hotplug"

/-- `RuntimeError` text of `detect_hotplugged_device` when presence does
not match the expected polarity. -/
def detectFailMsg : String := "Failed to detect device in updated metadata"

/-- `RuntimeError` text of `NetHandler.apply` when the interface cannot be
brought up. -/
def applyFailMsg : String := "Failed to bring up device"

/-- The initial `last_exception` of `try_hotplug`. -/
def initialLastExc : String := "Bug while processing hotplug event."

/-- The `DataSourceNotFoundException` escaping `hotplug_init.fetch`. -/
def dsNotFoundMsg : String := "DataSourceNotFoundException"

/-- One attempt of the `try` body in `try_hotplug` (udev action `add`, the
only action the CLI accepts): refresh metadata, detect the device unless
the datasource skips hotplug detect, apply the configuration, record
success via the persistence callback.  Returns the raised exception (if
any) and the steps performed. -/
def attempt_once (ds : HotplugDS) (k : Nat) : Option String × List HotplugStep :=
  if !ds.updateOk k then (some updateFailMsg, [HotplugStep.refreshMetadata])
  else if !ds.skipHotplugDetect then
    if !ds.detectOk k then
      (some detectFailMsg, [HotplugStep.refreshMetadata, HotplugStep.detectDevice])
    else if !ds.applyOk k then
      (some applyFailMsg,
       [HotplugStep.refreshMetadata, HotplugStep.detectDevice, HotplugStep.applyConfig])
    else
      (none,
       [HotplugStep.refreshMetadata, HotplugStep.detectDevice, HotplugStep.applyConfig,
        HotplugStep.recordSuccess])
  else
    if !ds.applyOk k then
      (some applyFailMsg, [HotplugStep.refreshMetadata, HotplugStep.applyConfig])
    else
      (none, [HotplugStep.refreshMetadata, HotplugStep.applyConfig, HotplugStep.recordSuccess])

/-- The `for attempt, wait in enumerate(wait_times)` loop of `try_hotplug`:
success breaks out; an exception sleeps the attempt's backoff delay and is
remembered; when the list is exhausted the for-else re-raises the last
exception.  Returns the outcome, the trace, and the next attempt index. -/
def try_hotplug_go (ds : HotplugDS) : List Nat → Nat → String → Except String Unit × List HotplugStep × Nat
  | [], k, lastExc => (Except.error lastExc, [], k)
  | wait :: rest, k, _lastExc =>
    match attempt_once ds k with
    | (none, tr) => (Except.ok (), tr, k + 1)
    | (some e, tr) =>
      match try_hotplug_go ds rest (k + 1) e with
      | (res, tr2, k2) => (res, tr ++ [HotplugStep.sleep wait] ++ tr2, k2)

/-- `wait_times` of `try_hotplug`. -/
def wait_times : List Nat := [1, 3, 5, 10, 30]

/-- `try_hotplug(subsystem, event_handler, datasource)` starting at attempt
counter `k`. -/
def try_hotplug (ds : HotplugDS) (k : Nat) : Except String Unit × List HotplugStep × Nat :=
  try_hotplug_go ds wait_times k initialLastExc

/-- Total seconds slept in a trace (the only modelled passage of time;
step execution itself is instantaneous in the model). -/
def trace_sleep_total : List HotplugStep → Nat
  | [] => 0
  | HotplugStep.sleep n :: rest => n + trace_sleep_total rest
  | _ :: rest => trace_sleep_total rest

/-- The force-retry loop of `handle_hotplug`: while the wall clock (sum of
sleeps in the model) is within `sleep_total`, run a full `try_hotplug`
round and sleep `sleep_period`.  An exception escaping a round propagates.
`fuel` bounds the recursion; `sleepTotal + 1` rounds always suffice when
`sleepPeriod ≥ 1` because each round advances the clock by at least
`sleepPeriod`. -/
def handle_loop (ds : HotplugDS) : Nat → Nat → Nat → Except String Unit × List HotplugStep
  | 0, _, _ => (Except.ok (), [])
  | fuel + 1, k, elapsed =>
    if elapsed < ds.sleepTotal then
      match try_hotplug ds k with
      | (Except.error e, tr, _) => (Except.error e, tr)
      | (Except.ok _, tr, k2) =>
        match handle_loop ds fuel k2 (elapsed + trace_sleep_total tr + ds.sleepPeriod) with
        | (res, tr2) => (res, tr ++ [HotplugStep.sleep ds.sleepPeriod] ++ tr2)
    else (Except.ok (), [])

/-- The environment of one `handle_hotplug` invocation: whether
`hotplug_init.fetch(existing="trust")` returns a datasource (else
`DataSourceNotFoundException` propagates), whether
`get_supported_events([EventType.HOTPLUG])` is non-empty, whether
`stages.update_event_enabled` reports the scope enabled, and the
datasource behaviour for the attempt loop. -/
structure HotplugEnv where
  fetchOk : Bool
  supportsHotplug : Bool
  enabled : Bool
  ds : HotplugDS

/-- `handle_hotplug(hotplug_init, devpath, subsystem, udevaction)`:
`initialize_datasource` returns no datasource when hotplug is unsupported
or not enabled (the event is silently ignored); otherwise one
`try_hotplug` round in normal mode, or the wall-clock window loop in
force-retry mode. -/
def handle_hotplug (env : HotplugEnv) : Except String Unit × List HotplugStep :=
  if !env.fetchOk then (Except.error dsNotFoundMsg, [])
  else if !env.supportsHotplug then (Except.ok (), [])
  else if !env.enabled then (Except.ok (), [])
  else if !env.ds.forceRetry then
    match try_hotplug env.ds 0 with
    | (res, tr, _) => (res, tr)
  else handle_loop env.ds (env.ds.sleepTotal + 1) 0 0

/-- Number of occurrences of a step in a trace. -/
def count_step (s : HotplugStep) (tr : List HotplugStep) : Nat :=
  (tr.filter (fun x => x = s)).length

/-- The sleep durations of a trace, in order. -/
def sleeps_of : List HotplugStep → List Nat
  | [] => []
  | HotplugStep.sleep n :: rest => n :: sleeps_of rest
  | _ :: rest => sleeps_of rest

/-! ## Hotplug enable operation -/

/-- Environment of `enable_hotplug`: whether `fetch` returns a (truthy)
datasource, whether `EventType.HOTPLUG` is among the supported events for
the subsystem's scope, and the `scopes` list of the persisted
hotplug.enabled file as read by `util.read_hotplug_enabled_file`. -/
structure EnableEnv where
  datasourceFound : Bool
  hotplugSupported : Bool
  fileScopes : List String

/-- Observable outcome of `enable_hotplug`: its boolean result, the final
`scopes` content, whether the state file was rewritten, and whether the
`install_hotplug` collaborator was invoked. -/
structure EnableOutcome where
  result : Bool
  scopes : List String
  wroteStateFile : Bool
  installerInvoked : Bool
  deriving DecidableEq

/-- `enable_hotplug(hotplug_init, subsystem)`: no datasource or no hotplug
support fail without mutation; a scope already present in the persisted
state is a no-op success; otherwise the scope is appended, the state file
rewritten, and the installer invoked once. -/
def enable_hotplug (env : EnableEnv) (scope : String) : EnableOutcome :=
  if !env.datasourceFound then ⟨false, env.fileScopes, false, false⟩
  else if !env.hotplugSupported then ⟨false, env.fileScopes, false, false⟩
  else if env.fileScopes.contains scope then ⟨true, env.fileScopes, false, false⟩
  else ⟨true, env.fileScopes ++ [scope], true, true⟩

/-! ## Concrete environments used by witnesses and counterexamples -/

/-- An environment in which only the kernel command line can contribute:
no DMI serial, empty seed directories, empty datasource config, no
devices, failing remote fetch; run as the local-stage `DataSourceNoCloud`
(`supported_seed_starts = ("/", "file://")`, initial dsmode `net`). -/
def simpleEnv (cmdline : String) : NoCloudEnv :=
  { dmiSerial := none
    cmdline := cmdline
    seedDirSeeds := [("/var/lib/cloud/seed/nocloud", none), ("/var/lib/cloud/seed/nocloud-net", none)]
    cfgSeedfrom := none
    cfgSeeded := none
    cfgFsLabel := none
    devices := []
    mountResult := fun _ => MountResult.invalidSeed
    subDmiVars := fun s => s
    readSeeded := fun _ => none
    initialDsmode := DSMODE_NETWORK
    supportedSeedStarts := ["/", "file://"] }

/-- Environment for the dsmode=disabled scenario: a fully populated
metadata gathered from the command line that resolves to `disabled`. -/
def envC3 : NoCloudEnv := simpleEnv "root=/dev/vda ds=nocloud;i=iid-c3;dsmode=disabled"

/-- The gathered state of `envC3` after the source phase. -/
def stC3 : List String × MyData :=
  (["cmdline"],
   { metaData := JObj.cons "instance-id" (JVal.str "iid-c3")
       (JObj.cons "dsmode" (JVal.str "disabled") JObj.nil)
     userData := ""
     vendorData := ""
     networkConfig := none })

/-- Environment in which no candidate source contributes anything. -/
def envC4 : NoCloudEnv := simpleEnv "root=/dev/vda ro quiet"

/-- Environment for a plain successful resolution from the command line. -/
def envC5 : NoCloudEnv := simpleEnv "ds=nocloud;i=iid-w5"

/-- The bundle resolved from `envC5`. -/
def rC5 : ResolvedSeed :=
  { seed := "cmdline"
    metadata := JObj.cons "instance-id" (JVal.str "iid-w5")
        (JObj.cons "dsmode" (JVal.str "local") JObj.nil)
    userdataRaw := ""
    vendordataRaw := ""
    networkConfig := none }

/-- Environment for the seedfrom-override scenario: the kernel command
line supplies `local-hostname=myhost` and `seedfrom=/seed/`; the seedfrom
fetch supplies a conflicting `local-hostname` plus a fresh key. -/
def envC1 : NoCloudEnv :=
  { simpleEnv "root=/dev/vda ds=nocloud;h=myhost;s=/seed/" with
    readSeeded := fun u =>
      if u = "/seed/" then
        some (JObj.cons "local-hostname" (JVal.str "otherhost")
                (JObj.cons "foo" (JVal.str "bar") JObj.nil),
              "seed-user-data", "seed-vendor-data", none)
      else none }

/-- The bundle resolved from `envC1`. -/
def rC1 : ResolvedSeed :=
  { seed := "cmdline,/seed/"
    metadata := JObj.cons "local-hostname" (JVal.str "myhost")
        (JObj.cons "seedfrom" (JVal.str "/seed/")
          (JObj.cons "dsmode" (JVal.str "local")
            (JObj.cons "foo" (JVal.str "bar")
              (JObj.cons "instance-id" (JVal.str "nocloud") JObj.nil))))
    userdataRaw := "seed-user-data"
    vendordataRaw := "seed-vendor-data"
    networkConfig := none }

/-- Earlier bundle for the C1 witness. -/
def curW : JObj := JObj.cons "a" (JVal.str "1") JObj.nil

/-- Later (seedfrom) metadata for the C1 witness. -/
def seedW : JObj := JObj.cons "a" (JVal.str "2") (JObj.cons "b" (JVal.str "3") JObj.nil)

instance : IsTotal String (fun a b => b ≤ a) := ⟨fun a b => le_total b a⟩

instance : IsTrans String (fun a b => b ≤ a) := ⟨fun _ _ _ h1 h2 => le_trans h2 h1⟩

instance : IsAntisymm String (fun a b => b ≤ a) := ⟨fun _ _ h1 h2 => le_antisymm h2 h1⟩

/-- The candidate list as the claim must be amended to read: the label
filter accepts exactly the uppercase form and the lowercase form of the
configured label on the primary label (not arbitrary mixed case), plus
the exact FAT boot fallback; filtered by filesystem type, deduplicated,
sorted descending. -/
def get_devices_amended_reading (devs : List BlockDev) (label : String) : List String :=
  List.insertionSort (fun a b => b ≤ a)
    (((devs.filter (fun d =>
        (d.fstype = "vfat" || d.fstype = "iso9660") &&
        (d.label = str_upper label || d.label = str_lower label || d.labelFatboot = some label))).map
      BlockDev.name).dedup)

/-- A vfat volume with the mixed-case label `CiData`: case-insensitively
it matches the configured label `cidata`, but `_get_devices` only queries
the uppercase and lowercase forms. -/
def devsC9 : List BlockDev :=
  [{ name := "/dev/vdb1", fstype := "vfat", label := "CiData", labelFatboot := none }]

/-- A datasource whose device never shows up in refreshed metadata. -/
def envC2 : HotplugEnv :=
  { fetchOk := true, supportsHotplug := true, enabled := true
    ds := { updateOk := fun _ => true, skipHotplugDetect := false
            detectOk := fun _ => false, applyOk := fun _ => true
            forceRetry := false, sleepTotal := 0, sleepPeriod := 0 } }

/-- A datasource whose device is visible on the very first refresh. -/
def envC6 : HotplugEnv :=
  { fetchOk := true, supportsHotplug := true, enabled := true
    ds := { updateOk := fun _ => true, skipHotplugDetect := false
            detectOk := fun _ => true, applyOk := fun _ => true
            forceRetry := false, sleepTotal := 0, sleepPeriod := 0 } }

/-- A hotplug-supporting datasource whose scope is not enabled. -/
def envC8 : HotplugEnv :=
  { fetchOk := true, supportsHotplug := true, enabled := false
    ds := { updateOk := fun _ => true, skipHotplugDetect := false
            detectOk := fun _ => true, applyOk := fun _ => true
            forceRetry := false, sleepTotal := 0, sleepPeriod := 0 } }

/-- Persisted state with the network scope already enabled. -/
def envC7 : EnableEnv :=
  { datasourceFound := true, hotplugSupported := true, fileScopes := ["network"] }

/-- Persisted state with no scope enabled yet. -/
def envC7b : EnableEnv :=
  { datasourceFound := true, hotplugSupported := true, fileScopes := [] }

/-- A force-retry datasource that succeeds in every round. -/
def envC10a : HotplugEnv :=
  { fetchOk := true, supportsHotplug := true, enabled := true
    ds := { updateOk := fun _ => true, skipHotplugDetect := false
            detectOk := fun _ => true, applyOk := fun _ => true
            forceRetry := true, sleepTotal := 5, sleepPeriod := 2 } }

/-- A force-retry datasource that succeeds in the first round and then
stops refreshing metadata. -/
def envC10b : HotplugEnv :=
  { fetchOk := true, supportsHotplug := true, enabled := true
    ds := { updateOk := fun k => k == 0, skipHotplugDetect := false
            detectOk := fun _ => true, applyOk := fun _ => true
            forceRetry := true, sleepTotal := 5, sleepPeriod := 2 } }

/-! ## Association list lemmas for the merge -/

theorem jlookup_jappend : ∀ (d : JObj) (k : String) (v : JVal) (k' : String),
    jlookup (jappend d k v) k'
      = match jlookup d k' with
        | some w => some w
        | none => if k = k' then some v else none
  | JObj.nil, k, v, k' => by simp [jappend, jlookup]
  | JObj.cons k1 v1 rest, k, v, k' => by
    by_cases h : k1 = k'
    · simp [jappend, jlookup, h]
    · simp [jappend, jlookup, h, jlookup_jappend rest k v k']

theorem jlookup_jsetKey_self : ∀ (d : JObj) (k : String) (v : JVal),
    (jlookup d k).isSome → jlookup (jsetKey d k v) k = some v
  | JObj.nil, k, v, h => by simp [jlookup] at h
  | JObj.cons k1 v1 rest, k, v, h => by
    by_cases hk : k1 = k
    · simp [jsetKey, hk, jlookup]
    · simp only [jlookup, if_neg hk] at h
      simp [jsetKey, hk, jlookup, jlookup_jsetKey_self rest k v h]

theorem jlookup_jsetKey_ne : ∀ (d : JObj) (k : String) (v : JVal) (k' : String),
    k ≠ k' → jlookup (jsetKey d k v) k' = jlookup d k'
  | JObj.nil, k, v, k', _ => by simp [jsetKey]
  | JObj.cons k1 v1 rest, k, v, k', h => by
    by_cases hk : k1 = k
    · simp [jsetKey, hk, jlookup, h]
    · simp [jsetKey, hk, jlookup, jlookup_jsetKey_ne rest k v k' h]

theorem jlookup_eq_none_iff : ∀ (d : JObj) (k : String),
    jlookup d k = none ↔ k ∉ jkeys d
  | JObj.nil, k => by simp [jlookup, jkeys]
  | JObj.cons k1 v1 rest, k => by
    by_cases hk : k1 = k
    · simp [jlookup, jkeys, hk]
    · simp [jlookup, jkeys, hk, jlookup_eq_none_iff rest k]
      exact fun _ hkk => hk hkk.symm

theorem jlookup_mergeObj_of_none : ∀ (mw value : JObj) (k : String),
    jlookup mw k = none → jlookup (mergeObj value mw) k = jlookup value k
  | JObj.nil, value, k, _ => by rw [mergeObj]
  | JObj.cons k1 v1 rest, value, k, h => by
    have hk : ¬ k1 = k := by
      intro he
      rw [jlookup, if_pos he] at h
      exact Option.noConfusion h
    have hr : jlookup rest k = none := by rwa [jlookup, if_neg hk] at h
    rw [mergeObj]
    cases hj : jlookup value k1 with
    | none =>
      rw [jlookup_mergeObj_of_none rest _ k hr]
      show jlookup (jappend value k1 v1) k = jlookup value k
      rw [jlookup_jappend]
      cases hv : jlookup value k with
      | none => simp [hk]
      | some w => simp
    | some old =>
      rw [jlookup_mergeObj_of_none rest _ k hr]
      show jlookup (jsetKey value k1 (mergeVal old v1)) k = jlookup value k
      rw [jlookup_jsetKey_ne _ _ _ _ hk]

theorem jlookup_mergeObj_left_isSome : ∀ (mw value : JObj) (k : String),
    (jlookup value k).isSome → (jlookup (mergeObj value mw) k).isSome
  | JObj.nil, value, k, h => by rwa [mergeObj]
  | JObj.cons k1 v1 rest, value, k, h => by
    rw [mergeObj]
    cases hj : jlookup value k1 with
    | none =>
      refine jlookup_mergeObj_left_isSome rest _ k ?_
      show (jlookup (jappend value k1 v1) k).isSome
      rw [jlookup_jappend]
      cases hv : jlookup value k with
      | none => rw [hv] at h; simp at h
      | some w => simp
    | some old =>
      refine jlookup_mergeObj_left_isSome rest _ k ?_
      show (jlookup (jsetKey value k1 (mergeVal old v1)) k).isSome
      by_cases hk : k1 = k
      · subst hk
        rw [jlookup_jsetKey_self value k1 _ (by rw [hj]; rfl)]
        rfl
      · rwa [jlookup_jsetKey_ne _ _ _ _ hk]

theorem jlookup_mergeObj_right_isSome : ∀ (mw value : JObj) (k : String),
    (jlookup mw k).isSome → (jlookup (mergeObj value mw) k).isSome
  | JObj.nil, value, k, h => by rw [jlookup] at h; simp at h
  | JObj.cons k1 v1 rest, value, k, h => by
    rw [mergeObj]
    by_cases hk : k1 = k
    · subst hk
      cases hj : jlookup value k1 with
      | none =>
        refine jlookup_mergeObj_left_isSome rest _ k1 ?_
        show (jlookup (jappend value k1 v1) k1).isSome
        rw [jlookup_jappend, hj]
        simp
      | some old =>
        refine jlookup_mergeObj_left_isSome rest _ k1 ?_
        show (jlookup (jsetKey value k1 (mergeVal old v1)) k1).isSome
        rw [jlookup_jsetKey_self value k1 _ (by rw [hj]; rfl)]
        rfl
    · rw [jlookup, if_neg hk] at h
      cases hj : jlookup value k1 with
      | none => exact jlookup_mergeObj_right_isSome rest _ k h
      | some old => exact jlookup_mergeObj_right_isSome rest _ k h

theorem jlookup_mergeObj : ∀ (mw value : JObj) (k : String), (jkeys mw).Nodup →
    jlookup (mergeObj value mw) k
      = match jlookup value k, jlookup mw k with
        | some old, some nw => some (mergeVal old nw)
        | some old, none => some old
        | none, o => o
  | JObj.nil, value, k, _ => by
    rw [mergeObj, jlookup]
    cases hv : jlookup value k <;> simp
  | JObj.cons k1 v1 rest, value, k, hnd => by
    have hnr : (jkeys rest).Nodup := by
      rw [jkeys] at hnd
      exact hnd.of_cons
    have hk1r : k1 ∉ jkeys rest := by
      rw [jkeys] at hnd
      exact (List.nodup_cons.mp hnd).1
    rw [mergeObj]
    by_cases hk : k1 = k
    · subst hk
      have hrestnone : jlookup rest k1 = none := (jlookup_eq_none_iff rest k1).mpr hk1r
      rw [jlookup, if_pos rfl]
      cases hj : jlookup value k1 with
      | none =>
        rw [jlookup_mergeObj_of_none rest _ k1 hrestnone]
        show jlookup (jappend value k1 v1) k1
          = match none, some v1 with
            | some old, some nw => some (mergeVal old nw)
            | some old, none => some old
            | none, o => o
        rw [jlookup_jappend, hj]
        simp
      | some old =>
        rw [jlookup_mergeObj_of_none rest _ k1 hrestnone]
        show jlookup (jsetKey value k1 (mergeVal old v1)) k1
          = match some old, some v1 with
            | some old, some nw => some (mergeVal old nw)
            | some old, none => some old
            | none, o => o
        rw [jlookup_jsetKey_self value k1 _ (by rw [hj]; rfl)]
    · rw [jlookup, if_neg hk]
      cases hj : jlookup value k1 with
      | none =>
        rw [jlookup_mergeObj rest _ k hnr]
        show (match jlookup (jappend value k1 v1) k, jlookup rest k with
            | some old, some nw => some (mergeVal old nw)
            | some old, none => some old
            | none, o => o)
          = match jlookup value k, jlookup rest k with
            | some old, some nw => some (mergeVal old nw)
            | some old, none => some old
            | none, o => o
        rw [jlookup_jappend]
        cases hv : jlookup value k with
        | none => simp [hk]
        | some w => simp
      | some old =>
        rw [jlookup_mergeObj rest _ k hnr]
        show (match jlookup (jsetKey value k1 (mergeVal old v1)) k, jlookup rest k with
            | some old, some nw => some (mergeVal old nw)
            | some old, none => some old
            | none, o => o)
          = match jlookup value k, jlookup rest k with
            | some old, some nw => some (mergeVal old nw)
            | some old, none => some old
            | none, o => o
        rw [jlookup_jsetKey_ne _ _ _ _ hk]

theorem jlookup_mergemanydict_pair (a b : JObj) (k : String)
    (ha : (jkeys a).Nodup) (hb : (jkeys b).Nodup) :
    jlookup (mergemanydict [a, b]) k
      = match jlookup a k, jlookup b k with
        | some old, some nw => some (mergeVal old nw)
        | some old, none => some old
        | none, o => o := by
  have step : ∀ (acc cfg : JObj), (jkeys cfg).Nodup →
      jlookup (if jIsEmpty cfg then acc else mergeObj acc cfg) k
        = match jlookup acc k, jlookup cfg k with
          | some old, some nw => some (mergeVal old nw)
          | some old, none => some old
          | none, o => o := by
    intro acc cfg hc
    cases cfg with
    | nil =>
      show jlookup acc k = _
      cases jlookup acc k <;> rfl
    | cons kc vc rc =>
      show jlookup (mergeObj acc (JObj.cons kc vc rc)) k = _
      exact jlookup_mergeObj _ _ _ hc
  show jlookup (if jIsEmpty b then (if jIsEmpty a then JObj.nil else mergeObj JObj.nil a)
      else mergeObj (if jIsEmpty a then JObj.nil else mergeObj JObj.nil a) b) k = _
  rw [step _ b hb, step JObj.nil a ha]
  cases hA : jlookup a k <;> cases hB : jlookup b k <;> rfl

theorem jlookup_mergemanydict_pair_right_isSome (a b : JObj) (k : String)
    (h : (jlookup b k).isSome) :
    (jlookup (mergemanydict [a, b]) k).isSome := by
  cases b with
  | nil => rw [jlookup] at h; simp at h
  | cons kb vb rb =>
    show (jlookup (mergeObj (if jIsEmpty a then JObj.nil else mergeObj JObj.nil a)
        (JObj.cons kb vb rb)) k).isSome
    exact jlookup_mergeObj_right_isSome _ _ _ h

/-! ## Structural lemmas about the source-gathering phase -/

theorem contribution_chain_nil {f : List String × MyData → List String × MyData}
    (hshape : ∀ st, f st = st ∨ ∃ tag m2, f st = (st.1 ++ [tag], m2))
    (st : List String × MyData) (h : (f st).1 = []) : f st = st ∧ st.1 = [] := by
  cases hshape st with
  | inl he => rw [he] at h; exact ⟨he, h⟩
  | inr hex =>
    obtain ⟨tag, m2, he⟩ := hex
    rw [he] at h
    simp at h

theorem step_dmi_shape (env : NoCloudEnv) (st : List String × MyData) :
    step_dmi env st = st ∨ ∃ tag m2, step_dmi env st = (st.1 ++ [tag], m2) := by
  unfold step_dmi
  split
  · exact Or.inl rfl
  · split
    · exact Or.inl rfl
    · split
      · exact Or.inl rfl
      · exact Or.inr ⟨_, _, rfl⟩

theorem step_cmdline_shape (env : NoCloudEnv) (st : List String × MyData) :
    step_cmdline env st = st ∨ ∃ tag m2, step_cmdline env st = (st.1 ++ [tag], m2) := by
  unfold step_cmdline
  split
  · exact Or.inl rfl
  · exact Or.inr ⟨_, _, rfl⟩

theorem step_seed_dirs_shape (env : NoCloudEnv) (st : List String × MyData) :
    step_seed_dirs env st = st ∨ ∃ tag m2, step_seed_dirs env st = (st.1 ++ [tag], m2) := by
  unfold step_seed_dirs
  split
  · exact Or.inl rfl
  · exact Or.inr ⟨_, _, rfl⟩

theorem step_cfg_seedfrom_shape (env : NoCloudEnv) (st : List String × MyData) :
    step_cfg_seedfrom env st = st ∨ ∃ tag m2, step_cfg_seedfrom env st = (st.1 ++ [tag], m2) := by
  unfold step_cfg_seedfrom
  split
  · exact Or.inl rfl
  · exact Or.inr ⟨_, _, rfl⟩

theorem step_cfg_data_shape (env : NoCloudEnv) (st : List String × MyData) :
    step_cfg_data env st = st ∨ ∃ tag m2, step_cfg_data env st = (st.1 ++ [tag], m2) := by
  unfold step_cfg_data
  split
  · exact Or.inl rfl
  · exact Or.inr ⟨_, _, rfl⟩

theorem dev_loop_nil : ∀ (devs : List String) (env : NoCloudEnv)
    (st : List String × MyData) (my : MyData),
    dev_loop env devs st = Except.ok ([], my) → st.1 = [] ∧ st.2 = my
  | [], env, st, my, h => by
    rw [dev_loop] at h
    injection h with h2
    exact ⟨by rw [h2], by rw [h2]⟩
  | dev :: rest, env, st, my, h => by
    rw [dev_loop] at h
    split at h
    · injection h with h2
      have := congrArg Prod.fst h2
      simp at this
    · exact dev_loop_nil rest env st my h
    · exact dev_loop_nil rest env st my h
    · exact dev_loop_nil rest env st my h
    · exact Except.noConfusion h

theorem step_devices_nil (env : NoCloudEnv) (st : List String × MyData) (my : MyData)
    (h : step_devices env st = Except.ok ([], my)) : st.1 = [] ∧ st.2 = my := by
  unfold step_devices at h
  split at h
  · injection h with h2
    exact ⟨by rw [h2], by rw [h2]⟩
  · exact dev_loop_nil _ env st my h

theorem sources_phase_nil (env : NoCloudEnv) (my : MyData)
    (h : sources_phase env = Except.ok ([], my)) : my = initMyData := by
  unfold sources_phase at h
  obtain ⟨h5, h5m⟩ := step_devices_nil env _ my h
  obtain ⟨e5, h4⟩ := contribution_chain_nil (step_cfg_data_shape env) _ h5
  rw [e5] at h5m
  obtain ⟨e4, h3⟩ := contribution_chain_nil (step_cfg_seedfrom_shape env) _ h4
  rw [e4] at h5m
  obtain ⟨e3, h2⟩ := contribution_chain_nil (step_seed_dirs_shape env) _ h3
  rw [e3] at h5m
  obtain ⟨e2, h1⟩ := contribution_chain_nil (step_cmdline_shape env) _ h2
  rw [e2] at h5m
  obtain ⟨e1, _⟩ := contribution_chain_nil (step_dmi_shape env) _ h1
  rw [e1] at h5m
  exact h5m.symm

theorem finalize_data_found (env : NoCloudEnv) (st2 : List String × MyData) (r : ResolvedSeed)
    (h : finalize_data env st2 = GetDataResult.found r) :
    r.metadata = mergemanydict [st2.2.metaData, nocloud_defaults env]
    ∧ resolved_dsmode env st2.2 ≠ DSMODE_DISABLED := by
  unfold finalize_data at h
  by_cases hd : resolved_dsmode env st2.2 = DSMODE_DISABLED
  · rw [if_pos hd] at h
    exact GetDataResult.noConfusion h
  · rw [if_neg hd] at h
    injection h with h2
    exact ⟨by rw [← h2], hd⟩

theorem get_data_found_inv (env : NoCloudEnv) (r : ResolvedSeed)
    (h : get_data env = GetDataResult.found r) :
    ∃ st2 : List String × MyData, finalize_data env st2 = GetDataResult.found r := by
  unfold get_data at h
  split at h
  · exact GetDataResult.noConfusion h
  · split at h
    · exact GetDataResult.noConfusion h
    · split at h
      · exact GetDataResult.noConfusion h
      · exact GetDataResult.noConfusion h
      · exact ⟨_, h⟩

/-! ## Claim theorems: seed resolver -/

/-- C3: dsmode is resolved once, from the fully merged metadata (after the
seedfrom step and the defaults merge, i.e. after all source merging); when
it resolves to `disabled`, `_get_data` returns False (NotFound) and the
gathered bundle is discarded, regardless of how much metadata was
gathered. -/
theorem dsmode_disabled_yields_not_found (env : NoCloudEnv)
    (st st2 : List String × MyData)
    (h1 : sources_phase env = Except.ok st) (h2 : st.1 ≠ [])
    (h3 : seedfrom_step env st = Except.ok st2)
    (h4 : resolved_dsmode env st2.2 = DSMODE_DISABLED) :
    get_data env = GetDataResult.notFound := by
  have hemp : ¬ st.1.isEmpty = true := by
    cases hl : st.1 with
    | nil => exact absurd hl h2
    | cons x xs => simp [hl]
  unfold get_data
  rw [h1]
  show (if st.1.isEmpty = true then GetDataResult.notFound
    else match seedfrom_step env st with
      | Except.error SeedfromExit.notFound => GetDataResult.notFound
      | Except.error SeedfromExit.raised => GetDataResult.raised
      | Except.ok st2 => finalize_data env st2) = GetDataResult.notFound
  rw [if_neg hemp, h3]
  show finalize_data env st2 = GetDataResult.notFound
  unfold finalize_data
  rw [if_pos h4]

/-- C3 witness: a command line supplying instance-id and
`dsmode=disabled` populates the metadata yet resolution is NotFound. -/
theorem dsmode_disabled_yields_not_found_witness :
    sources_phase envC3 = Except.ok stC3
    ∧ resolved_dsmode envC3 stC3.2 = DSMODE_DISABLED
    ∧ get_data envC3 = GetDataResult.notFound :=
  ⟨by rfl, by rfl,
   dsmode_disabled_yields_not_found envC3 stC3 stC3 (by rfl) (by simp [stC3]) (by rfl) (by rfl)⟩

/-- C4: when the source-gathering phase ends with an empty `found` list
(no candidate source contributed anything), `_get_data` returns False
(NotFound) rather than an empty bundle, and the accumulated `mydata` is
still the initial empty bundle — no datasource field is populated. -/
theorem no_source_contribution_yields_not_found (env : NoCloudEnv) (my : MyData)
    (h : sources_phase env = Except.ok ([], my)) :
    get_data env = GetDataResult.notFound ∧ my = initMyData := by
  refine ⟨?_, sources_phase_nil env my h⟩
  unfold get_data
  rw [h]
  rfl

/-- C4 witness: a command line with no `ds=nocloud` indication leaves
every source silent and resolution is NotFound. -/
theorem no_source_contribution_yields_not_found_witness :
    sources_phase envC4 = Except.ok ([], initMyData)
    ∧ (get_data envC4 = GetDataResult.notFound ∧ initMyData = initMyData) :=
  ⟨by rfl, no_source_contribution_yields_not_found envC4 initMyData (by rfl)⟩

/-- C5: every successful resolution carries both `instance-id` and
`dsmode` in its metadata: the defaults dict supplying them is merged in
after all sources, filling the keys when absent (and, by the no-replace
merge, without overriding source-supplied values). -/
theorem resolved_metadata_has_instance_id_and_dsmode (env : NoCloudEnv) (r : ResolvedSeed)
    (h : get_data env = GetDataResult.found r) :
    (jlookup r.metadata "instance-id").isSome ∧ (jlookup r.metadata "dsmode").isSome := by
  obtain ⟨st2, hf⟩ := get_data_found_inv env r h
  obtain ⟨hmd, -⟩ := finalize_data_found env st2 r hf
  rw [hmd]
  constructor
  · exact jlookup_mergemanydict_pair_right_isSome _ _ _ (by rfl)
  · exact jlookup_mergemanydict_pair_right_isSome _ _ _ (by rfl)

/-- C5 witness: the command line `ds=nocloud;i=iid-w5` resolves to a
bundle whose metadata holds both keys. -/
theorem resolved_metadata_has_instance_id_and_dsmode_witness :
    get_data envC5 = GetDataResult.found rC5
    ∧ ((jlookup rC5.metadata "instance-id").isSome
        ∧ (jlookup rC5.metadata "dsmode").isSome) :=
  ⟨by rfl, resolved_metadata_has_instance_id_and_dsmode envC5 rC5 (by rfl)⟩

/-- C1 counterexample: the seedfrom URL fetch is consulted after the
kernel command line and supplies `local-hostname = otherhost` for a key
the command line already set to `myhost`; the resolved metadata keeps the
earlier value `myhost`, so the later-consulted source does not replace
the value of the earlier one (its fresh key `foo` is still added). -/
theorem seedfrom_does_not_override_cmdline_cex :
    get_data envC1 = GetDataResult.found rC1
    ∧ (envC1.readSeeded "/seed/").map (fun q => jlookup q.1 "local-hostname")
        = some (some (JVal.str "otherhost"))
    ∧ jlookup rC1.metadata "local-hostname" = some (JVal.str "myhost")
    ∧ jlookup rC1.metadata "foo" = some (JVal.str "bar")
    ∧ some (JVal.str "myhost") ≠ some (JVal.str "otherhost") :=
  ⟨by rfl, by rfl, by rfl, by rfl, by decide⟩

/-- C1 (amended): the metadata merge performed when the seedfrom fetch is
layered over the gathered bundle (`mergemanydict([mydata, md_seed])`) is
recursive first-writer-wins per key: a key present in the earlier bundle
keeps its value (two dict values are combined recursively, again earlier
wins per key), a key only in the later source is added, and no key is
ever removed. -/
theorem metadata_merge_first_writer_wins (cur md_seed : JObj) (k : String)
    (hc : (jkeys cur).Nodup) (hs : (jkeys md_seed).Nodup) :
    jlookup (mergemanydict [cur, md_seed]) k
      = match jlookup cur k, jlookup md_seed k with
        | some (JVal.dict a), some (JVal.dict b) => some (JVal.dict (mergeObj a b))
        | some old, some _ => some old
        | some old, none => some old
        | none, o => o := by
  rw [jlookup_mergemanydict_pair cur md_seed k hc hs]
  cases jlookup cur k with
  | none => cases jlookup md_seed k <;> rfl
  | some old =>
    cases jlookup md_seed k with
    | none => cases old <;> rfl
    | some nw => cases old <;> cases nw <;> rfl

/-- C1 witness: on a concrete conflicting pair the merge keeps the
earlier value and adds the later source's fresh key. -/
theorem metadata_merge_first_writer_wins_witness :
    ((jkeys curW).Nodup ∧ (jkeys seedW).Nodup)
    ∧ jlookup (mergemanydict [curW, seedW]) "a" = some (JVal.str "1")
    ∧ jlookup (mergemanydict [curW, seedW]) "b" = some (JVal.str "3") :=
  ⟨⟨by decide, by decide⟩,
   metadata_merge_first_writer_wins curW seedW "a" (by decide) (by decide),
   metadata_merge_first_writer_wins curW seedW "b" (by decide) (by decide)⟩

/-! ## Claim theorems: removable-volume candidate list (`_get_devices`) -/

theorem mem_find_devs_with (devs : List BlockDev) (c : DevCriteria) (n : String) :
    n ∈ find_devs_with devs c ↔ ∃ d ∈ devs, dev_matches c d = true ∧ d.name = n := by
  unfold find_devs_with
  simp only [List.mem_map, List.mem_filter]
  constructor
  · rintro ⟨d, ⟨hd, hm⟩, hn⟩
    exact ⟨d, hd, hm, hn⟩
  · rintro ⟨d, hd, hm, hn⟩
    exact ⟨d, ⟨hd, hm⟩, hn⟩

theorem mem_get_devices (devs : List BlockDev) (label : String) (n : String) :
    n ∈ get_devices devs label ↔
      ((∃ d ∈ devs, (d.fstype = "vfat" ∨ d.fstype = "iso9660") ∧ d.name = n)
       ∧ (∃ d ∈ devs, (d.label = str_upper label ∨ d.label = str_lower label
            ∨ d.labelFatboot = some label) ∧ d.name = n)) := by
  unfold get_devices
  rw [(List.perm_insertionSort _ _).mem_iff, List.mem_dedup, List.mem_filter]
  rw [List.elem_iff]
  simp only [List.mem_append, mem_find_devs_with, dev_matches]
  constructor
  · rintro ⟨hfs, hlab⟩
    constructor
    · rcases hfs with ⟨d, hd, hm, hn⟩ | ⟨d, hd, hm, hn⟩
      · exact ⟨d, hd, Or.inl (by simpa using hm), hn⟩
      · exact ⟨d, hd, Or.inr (by simpa using hm), hn⟩
    · rcases hlab with (⟨d, hd, hm, hn⟩ | ⟨d, hd, hm, hn⟩) | ⟨d, hd, hm, hn⟩
      · exact ⟨d, hd, Or.inl (by simpa using hm), hn⟩
      · exact ⟨d, hd, Or.inr (Or.inl (by simpa using hm)), hn⟩
      · exact ⟨d, hd, Or.inr (Or.inr (by simpa using hm)), hn⟩
  · rintro ⟨⟨d1, hd1, hm1, hn1⟩, ⟨d2, hd2, hm2, hn2⟩⟩
    constructor
    · rcases hm1 with h | h
      · exact Or.inl ⟨d1, hd1, by simpa using h, hn1⟩
      · exact Or.inr ⟨d1, hd1, by simpa using h, hn1⟩
    · rcases hm2 with h | h | h
      · exact Or.inl (Or.inl ⟨d2, hd2, by simpa using h, hn2⟩)
      · exact Or.inl (Or.inr ⟨d2, hd2, by simpa using h, hn2⟩)
      · exact Or.inr ⟨d2, hd2, by simpa using h, hn2⟩

theorem mem_get_devices_amended_reading (devs : List BlockDev) (label : String) (n : String) :
    n ∈ get_devices_amended_reading devs label ↔
      ∃ d ∈ devs, ((d.fstype = "vfat" ∨ d.fstype = "iso9660")
        ∧ (d.label = str_upper label ∨ d.label = str_lower label ∨ d.labelFatboot = some label))
        ∧ d.name = n := by
  unfold get_devices_amended_reading
  rw [(List.perm_insertionSort _ _).mem_iff, List.mem_dedup]
  simp only [List.mem_map, List.mem_filter, Bool.and_eq_true, Bool.or_eq_true, decide_eq_true_eq]
  constructor
  · rintro ⟨d, ⟨hd, hm⟩, hn⟩
    exact ⟨d, hd, ⟨hm.1, or_assoc.mp hm.2⟩, hn⟩
  · rintro ⟨d, hd, hm, hn⟩
    exact ⟨d, ⟨hd, hm.1, or_assoc.mpr hm.2⟩, hn⟩

/-- C9 counterexample: for the configured label `cidata`, the device
labelled `CiData` is in the candidate set under the claimed
case-insensitive label filter but not in the list `_get_devices`
produces, so the label match is not case-insensitive. -/
theorem get_devices_not_case_insensitive_cex :
    get_devices devsC9 "cidata" = []
    ∧ get_devices_spec_reading devsC9 "cidata" = ["/dev/vdb1"] :=
  ⟨by rfl, by rfl⟩

/-- C9 (amended): the candidate list equals the set of devices matching
the filesystem-type filter (vfat or iso9660) and the label filter, where
the label filter accepts exactly the uppercase or the lowercase form of
the configured label (plus the exact fat-boot fallback); the result is
deduplicated and sorted in descending order, hence deterministic for a
given set (any permutation) of devices with distinct names. -/
theorem get_devices_candidates_amended (devs devs2 : List BlockDev) (label : String)
    (hn : (devs.map BlockDev.name).Nodup) (hperm : devs.Perm devs2) :
    get_devices devs label = get_devices_amended_reading devs label
    ∧ (get_devices devs label).Nodup
    ∧ List.Sorted (fun a b => b ≤ a) (get_devices devs label)
    ∧ get_devices devs2 label = get_devices devs label := by
  have hnodup : ∀ (ds : List BlockDev) (lab : String), (get_devices ds lab).Nodup := by
    intro ds lab
    unfold get_devices
    exact ((List.perm_insertionSort _ _).nodup_iff).mpr (List.nodup_dedup _)
  have hsorted : ∀ (ds : List BlockDev) (lab : String),
      List.Sorted (fun a b => b ≤ a) (get_devices ds lab) := by
    intro ds lab
    unfold get_devices
    exact List.sorted_insertionSort _ _
  have hnodupA : (get_devices_amended_reading devs label).Nodup := by
    unfold get_devices_amended_reading
    exact ((List.perm_insertionSort _ _).nodup_iff).mpr (List.nodup_dedup _)
  have hsortedA : List.Sorted (fun a b => b ≤ a) (get_devices_amended_reading devs label) := by
    unfold get_devices_amended_reading
    exact List.sorted_insertionSort _ _
  refine ⟨?_, hnodup devs label, hsorted devs label, ?_⟩
  · apply List.eq_of_perm_of_sorted ?_ (hsorted devs label) hsortedA
    rw [List.perm_ext_iff_of_nodup (hnodup devs label) hnodupA]
    intro n
    rw [mem_get_devices, mem_get_devices_amended_reading]
    constructor
    · rintro ⟨⟨d1, hd1, hm1, hn1⟩, ⟨d2, hd2, hm2, hn2⟩⟩
      have hdd : d1 = d2 := List.inj_on_of_nodup_map hn hd1 hd2 (hn1.trans hn2.symm)
      subst hdd
      exact ⟨d1, hd1, ⟨hm1, hm2⟩, hn1⟩
    · rintro ⟨d, hd, ⟨hm1, hm2⟩, hnm⟩
      exact ⟨⟨d, hd, hm1, hnm⟩, ⟨d, hd, hm2, hnm⟩⟩
  · apply List.eq_of_perm_of_sorted ?_ (hsorted devs2 label) (hsorted devs label)
    rw [List.perm_ext_iff_of_nodup (hnodup devs2 label) (hnodup devs label)]
    intro n
    rw [mem_get_devices, mem_get_devices]
    constructor
    · rintro ⟨⟨d1, hd1, hm1, hn1⟩, ⟨d2, hd2, hm2, hn2⟩⟩
      exact ⟨⟨d1, hperm.mem_iff.mpr hd1, hm1, hn1⟩, ⟨d2, hperm.mem_iff.mpr hd2, hm2, hn2⟩⟩
    · rintro ⟨⟨d1, hd1, hm1, hn1⟩, ⟨d2, hd2, hm2, hn2⟩⟩
      exact ⟨⟨d1, hperm.mem_iff.mp hd1, hm1, hn1⟩, ⟨d2, hperm.mem_iff.mp hd2, hm2, hn2⟩⟩

/-- C9 witness: the amended characterization instantiated on the
concrete one-device list. -/
theorem get_devices_candidates_amended_witness :
    get_devices devsC9 "cidata" = get_devices_amended_reading devsC9 "cidata"
    ∧ (get_devices devsC9 "cidata").Nodup
    ∧ List.Sorted (fun a b => b ≤ a) (get_devices devsC9 "cidata")
    ∧ get_devices devsC9 "cidata" = get_devices devsC9 "cidata" :=
  get_devices_candidates_amended devsC9 devsC9 "cidata" (by decide) (List.Perm.refl _)

/-! ## Claim theorems: hotplug coordinator -/

/-- C2: on an add event whose device never appears in refreshed metadata
(detect fails on every attempt) in non-force-retry mode, `handle` performs
exactly 5 attempts of (refresh metadata, detect device), sleeping the
fixed backoff delays 1, 3, 5, 10, 30 seconds (one after each failed
attempt), and then re-raises the last exception — the detect failure; it
never raises after fewer than 5 attempts. -/
theorem hotplug_no_device_five_attempts (env : HotplugEnv)
    (hfetch : env.fetchOk = true) (hsupp : env.supportsHotplug = true)
    (hen : env.enabled = true) (hforce : env.ds.forceRetry = false)
    (hskip : env.ds.skipHotplugDetect = false)
    (hupd : ∀ k, env.ds.updateOk k = true) (hdet : ∀ k, env.ds.detectOk k = false) :
    handle_hotplug env
      = (Except.error detectFailMsg,
         [HotplugStep.refreshMetadata, HotplugStep.detectDevice, HotplugStep.sleep 1,
          HotplugStep.refreshMetadata, HotplugStep.detectDevice, HotplugStep.sleep 3,
          HotplugStep.refreshMetadata, HotplugStep.detectDevice, HotplugStep.sleep 5,
          HotplugStep.refreshMetadata, HotplugStep.detectDevice, HotplugStep.sleep 10,
          HotplugStep.refreshMetadata, HotplugStep.detectDevice, HotplugStep.sleep 30])
    ∧ count_step HotplugStep.refreshMetadata (handle_hotplug env).2 = 5
    ∧ sleeps_of (handle_hotplug env).2 = wait_times := by
  have hmain : handle_hotplug env
      = (Except.error detectFailMsg,
         [HotplugStep.refreshMetadata, HotplugStep.detectDevice, HotplugStep.sleep 1,
          HotplugStep.refreshMetadata, HotplugStep.detectDevice, HotplugStep.sleep 3,
          HotplugStep.refreshMetadata, HotplugStep.detectDevice, HotplugStep.sleep 5,
          HotplugStep.refreshMetadata, HotplugStep.detectDevice, HotplugStep.sleep 10,
          HotplugStep.refreshMetadata, HotplugStep.detectDevice, HotplugStep.sleep 30]) := by
    unfold handle_hotplug
    rw [hfetch, hsupp, hen, hforce]
    simp [try_hotplug, try_hotplug_go, wait_times, attempt_once, hupd, hdet, hskip]
  refine ⟨hmain, ?_, ?_⟩
  · rw [hmain]
    rfl
  · rw [hmain]
    rfl

/-- C2 witness: the five-attempt exhaustion on a concrete environment. -/
theorem hotplug_no_device_five_attempts_witness :
    handle_hotplug envC2
      = (Except.error detectFailMsg,
         [HotplugStep.refreshMetadata, HotplugStep.detectDevice, HotplugStep.sleep 1,
          HotplugStep.refreshMetadata, HotplugStep.detectDevice, HotplugStep.sleep 3,
          HotplugStep.refreshMetadata, HotplugStep.detectDevice, HotplugStep.sleep 5,
          HotplugStep.refreshMetadata, HotplugStep.detectDevice, HotplugStep.sleep 10,
          HotplugStep.refreshMetadata, HotplugStep.detectDevice, HotplugStep.sleep 30])
    ∧ count_step HotplugStep.refreshMetadata (handle_hotplug envC2).2 = 5
    ∧ sleeps_of (handle_hotplug envC2).2 = wait_times :=
  hotplug_no_device_five_attempts envC2 (by rfl) (by rfl) (by rfl) (by rfl) (by rfl)
    (fun _ => rfl) (fun _ => rfl)

/-- C6: when the device is found on the first attempt (all steps of
attempt 0 succeed) in non-force-retry mode, `handle` returns without
raising and the persistence callback runs exactly once, strictly after
metadata refresh, device detection and config application. -/
theorem hotplug_first_attempt_success_records_once (env : HotplugEnv)
    (hfetch : env.fetchOk = true) (hsupp : env.supportsHotplug = true)
    (hen : env.enabled = true) (hforce : env.ds.forceRetry = false)
    (hskip : env.ds.skipHotplugDetect = false)
    (hupd : env.ds.updateOk 0 = true) (hdet : env.ds.detectOk 0 = true)
    (happ : env.ds.applyOk 0 = true) :
    handle_hotplug env
      = (Except.ok (),
         [HotplugStep.refreshMetadata, HotplugStep.detectDevice, HotplugStep.applyConfig,
          HotplugStep.recordSuccess])
    ∧ count_step HotplugStep.recordSuccess (handle_hotplug env).2 = 1 := by
  have hmain : handle_hotplug env
      = (Except.ok (),
         [HotplugStep.refreshMetadata, HotplugStep.detectDevice, HotplugStep.applyConfig,
          HotplugStep.recordSuccess]) := by
    unfold handle_hotplug
    rw [hfetch, hsupp, hen, hforce]
    simp [try_hotplug, try_hotplug_go, wait_times, attempt_once, hupd, hdet, happ, hskip]
  refine ⟨hmain, ?_⟩
  rw [hmain]
  rfl

/-- C6 witness: first-attempt success on a concrete environment. -/
theorem hotplug_first_attempt_success_records_once_witness :
    handle_hotplug envC6
      = (Except.ok (),
         [HotplugStep.refreshMetadata, HotplugStep.detectDevice, HotplugStep.applyConfig,
          HotplugStep.recordSuccess])
    ∧ count_step HotplugStep.recordSuccess (handle_hotplug envC6).2 = 1 :=
  hotplug_first_attempt_success_records_once envC6 (by rfl) (by rfl) (by rfl) (by rfl)
    (by rfl) (by rfl) (by rfl) (by rfl)

/-- C8: an event whose subsystem does not support HOTPLUG, or whose scope
is not enabled in the persisted state, makes `handle_hotplug` return early
with success and an empty trace: no metadata refresh, no device
detection, no config application, no persistence callback. -/
theorem hotplug_disabled_event_ignored (env : HotplugEnv)
    (hfetch : env.fetchOk = true)
    (h : env.supportsHotplug = false ∨ env.enabled = false) :
    handle_hotplug env = (Except.ok (), []) := by
  unfold handle_hotplug
  rw [hfetch]
  rcases h with h | h
  · rw [h]
    rfl
  · rw [h]
    cases hs : env.supportsHotplug
    · rfl
    · rfl

/-- C8 witness: not-enabled scope ignored on a concrete environment. -/
theorem hotplug_disabled_event_ignored_witness :
    handle_hotplug envC8 = (Except.ok (), []) :=
  hotplug_disabled_event_ignored envC8 (by rfl) (Or.inr (by rfl))

/-- C7: enabling a scope already present in the persisted state is a
no-op success — the state is unchanged, the file is not rewritten, the
installer is not invoked — and `enable_hotplug` never removes scopes: its
resulting scope list is always the original list or the original list
with the one scope appended. -/
theorem enable_hotplug_idempotent_no_reinstall (env : EnableEnv) (scope : String)
    (env2 : EnableEnv) (scope2 : String)
    (hds : env.datasourceFound = true) (hsupp : env.hotplugSupported = true)
    (hmem : env.fileScopes.contains scope = true) :
    enable_hotplug env scope
      = { result := true, scopes := env.fileScopes
          wroteStateFile := false, installerInvoked := false }
    ∧ ((enable_hotplug env2 scope2).scopes = env2.fileScopes
        ∨ (enable_hotplug env2 scope2).scopes = env2.fileScopes ++ [scope2]) := by
  constructor
  · unfold enable_hotplug
    rw [hds, hsupp, hmem]
    rfl
  · unfold enable_hotplug
    split
    · exact Or.inl rfl
    · split
      · exact Or.inl rfl
      · split
        · exact Or.inl rfl
        · exact Or.inr rfl

/-- C7 witness: second enable of `network` is a no-op success; a first
enable appends the scope. -/
theorem enable_hotplug_idempotent_no_reinstall_witness :
    enable_hotplug envC7 "network"
      = { result := true, scopes := envC7.fileScopes
          wroteStateFile := false, installerInvoked := false }
    ∧ ((enable_hotplug envC7b "network").scopes = envC7b.fileScopes
        ∨ (enable_hotplug envC7b "network").scopes = envC7b.fileScopes ++ ["network"]) :=
  enable_hotplug_idempotent_no_reinstall envC7 "network" envC7b "network" (by rfl) (by rfl)
    (by rfl)

/-- C10: in force-retry mode a successful round does not end `handle`:
with `sleep_total = 5` and `sleep_period = 2` an all-successful datasource
runs 3 full rounds, invoking the persistence callback 3 times (more than
once); and when a later round exhausts its own 5 attempts, its exception
propagates out of `handle` even though an earlier round succeeded (the
trace still records that earlier success). -/
theorem force_retry_repeats_and_late_failure_raises :
    (handle_hotplug envC10a).1 = Except.ok ()
    ∧ count_step HotplugStep.recordSuccess (handle_hotplug envC10a).2 = 3
    ∧ 1 < count_step HotplugStep.recordSuccess (handle_hotplug envC10a).2
    ∧ (handle_hotplug envC10b).1 = Except.error updateFailMsg
    ∧ count_step HotplugStep.recordSuccess (handle_hotplug envC10b).2 = 1 :=
  ⟨by rfl, by rfl, by decide, by rfl, by rfl⟩
